import Mathlib

/-!
Verification of the Historia-AI orchestration core against its specification.

The Python sources are shallowly embedded as Lean definitions:
* external collaborators (the text-generation service, the research adapter,
  the filesystem) are passed in as explicit function parameters (oracles);
* Python dicts are association lists with latest-binding-wins lookup;
* Python string operations (`strip`, `split`, `in`, slicing, `lower`) are
  modelled by executable Lean counterparts defined below.

Source files embedded: `utils/tools.py`, `agents/fact_checker_agent.py`,
`agents/planner_agent.py`, `agents/request_reviewer_agent.py`, `bot/main.py`.
-/

namespace HistoriaAI

/-! ### Python string primitives -/

/-- Python `s.lower()` (ASCII case folding, as used on the ASCII markers here). -/
def pyLower (s : String) : String := String.mk (s.toList.map Char.toLower)

/-- Python `s.upper()`. -/
def pyUpper (s : String) : String := String.mk (s.toList.map Char.toUpper)

/-- Python `s[:n]` on strings: the first `n` characters. -/
def pyTake (s : String) (n : Nat) : String := String.mk (s.toList.take n)

/-- Does the character list start with the given pattern? -/
def charsStartWith : List Char → List Char → Bool
  | _, [] => true
  | [], _ :: _ => false
  | c :: cs, d :: ds => c == d && charsStartWith cs ds

/-- Does the pattern occur as a contiguous sublist? -/
def charsContain (needle : List Char) : List Char → Bool
  | [] => needle.isEmpty
  | c :: rest => charsStartWith (c :: rest) needle || charsContain needle rest

/-- Python `needle in hay` on strings: substring containment. -/
def strContains (hay needle : String) : Bool :=
  charsContain needle.toList hay.toList

/-- Python `s.startswith(p)`. -/
def pyStartsWith (s p : String) : Bool := charsStartWith s.toList p.toList

/-- Python `s.strip()` with no argument: drop whitespace from both ends. -/
def pyStrip (s : String) : String :=
  String.mk (((s.toList.dropWhile Char.isWhitespace).reverse.dropWhile
    Char.isWhitespace).reverse)

/-- Python `s.strip(chars)`: drop characters in `chars` from both ends. -/
def pyStripChars (chars : List Char) (s : String) : String :=
  String.mk (((s.toList.dropWhile (chars.contains ·)).reverse.dropWhile
    (chars.contains ·)).reverse)

/-- Python `s.split()` with no argument: split on whitespace runs, no empties. -/
def pySplitWs (s : String) : List String :=
  (s.split Char.isWhitespace).filter (fun w => w ≠ "")

/-- Splitting a character list at every non-overlapping occurrence of a
non-empty separator, left to right.  `fuel` bounds the recursion; it is
called with `fuel = hay.length`, which suffices because every step consumes
at least one character of `hay`. -/
def splitCharsAux (sep : List Char) : Nat → List Char → List Char → List (List Char)
  | 0, hay, acc => [acc.reverse ++ hay]
  | fuel + 1, hay, acc =>
    match hay with
    | [] => [acc.reverse]
    | c :: rest =>
      if !sep.isEmpty && charsStartWith (c :: rest) sep then
        acc.reverse :: splitCharsAux sep fuel ((c :: rest).drop sep.length) []
      else
        splitCharsAux sep fuel rest (c :: acc)

/-- Python `s.split(sep)` for a non-empty separator. -/
def pySplit (s sep : String) : List String :=
  (splitCharsAux sep.toList s.toList.length s.toList []).map String.mk

/-- Python `"sep".join(parts)`. -/
def pyJoin (sep : String) : List String → String
  | [] => ""
  | [x] => x
  | x :: xs => x ++ sep ++ pyJoin sep xs

/-! ### `utils/tools.py`: `lightweight_factcheck` -/

/-- The character set of `w.strip(".,!?()[]\x7b\x7d:;\"'`")` in `norm_words`
(`utils/tools.py` line 376).  The brace, double-quote, apostrophe and backtick
characters are written by code point. -/
def factcheckStripSet : List Char :=
  ['.', ',', '!', '?', '(', ')', '[', ']',
   Char.ofNat 123, Char.ofNat 125, ':', ';',
   Char.ofNat 34, Char.ofNat 39, Char.ofNat 96]

/-- Function `norm_words` from `utils/tools.py` lines 373-379: lowercase, split on
whitespace, strip punctuation, keep words of length ≥ 5, as a set
(represented as a duplicate-free list). -/
def norm_words (s : String) : List String :=
  (((pySplitWs (pyLower s)).map (pyStripChars factcheckStripSet)).filter
    (fun w => 5 ≤ w.length)).dedup

/-- Computation `hits = sorted(c.intersection(e))` from `utils/tools.py` line 384. -/
def overlapHits (claim evidence : String) : List String :=
  (((norm_words claim).filter (fun w => (norm_words evidence).contains w)).mergeSort
    (fun a b => a ≤ b))

/-- Function `lightweight_factcheck` from `utils/tools.py` lines 368-389. -/
def lightweight_factcheck (claim evidence : String) : String :=
  let hits := overlapHits claim evidence
  if 3 ≤ hits.length then
    "✅ Supported (keyword overlap: " ++ pyJoin ", " (hits.take 10) ++ ")"
  else if 1 ≤ hits.length then
    "⚠️ Weak support (keyword overlap: " ++ pyJoin ", " (hits.take 10) ++ ")"
  else
    "❌ Not supported by evidence (no meaningful keyword overlap)"

/-! ### `agents/fact_checker_agent.py` -/

/-- The short-circuit verdict returned when no usable evidence exists
(`fact_checker_agent.py` lines 44-48). -/
def noEvidenceVerdict : String :=
  "⚠️ Fact-Checker: No evidence provided yet, cannot verify reliably.\n" ++
  "Verdict: UNKNOWN\n" ++
  "Notes: Retrieve evidence first (e.g., Britannica) to enable verification."

/-- The fact-check prompt of `fact_checker_agent.py` lines 50-75, abridged to
its dynamic structure (the prose is an external-collaborator interface). -/
def factCheckPrompt (evidence text_to_check : String) : String :=
  "You are a strict fact-checking agent for educational content.\n" ++
  "Output format EXACTLY:\nGO/NO-GO: <GO|NO-GO>\nConfidence: <High|Medium|Low>\n" ++
  "Reason: <one sentence explanation>\nWarnings (if any): <specific issues or None>\n" ++
  "EVIDENCE:\n" ++ evidence ++ "\n\nTEXT TO CHECK:\n" ++ text_to_check

/-- Function `fact_checker_agent` from `agents/fact_checker_agent.py` lines 33-78.
`gen` is the Generation Service oracle; the second component counts how many
Generation Service calls were made. -/
def fact_checker_agent (gen : String → String) (text_to_check evidence : String) :
    String × Nat :=
  if evidence = "" ∨ (pyStrip evidence).length < 20 then
    (noEvidenceVerdict, 0)
  else
    ("🛡️ Fact-Checker Result:\n" ++ gen (factCheckPrompt evidence text_to_check), 1)

/-! ### `agents/planner_agent.py`: revision loop (`_process_lesson` lines 488-561) -/

/-- Constant `MAX_WIKI_TOPICS = 5` (`planner_agent.py` line 52). -/
def MAX_WIKI_TOPICS : Nat := 5

/-- Constant `max_revision_attempts = 4` (`planner_agent.py` line 489). -/
def max_revision_attempts : Nat := 4

/-- Test `"Warnings:" in r and "None" not in r.split("Warnings:")[1][:20]`
(`planner_agent.py` line 494). -/
def hasActionableWarnings (r : String) : Bool :=
  strContains r "Warnings:" &&
    !(strContains (pyTake ((pySplit r "Warnings:").getD 1 "") 20) "None")

/-- Test `"GO/NO-GO: NO-GO" in r` (`planner_agent.py` line 495). -/
def isNoGoVerdict (r : String) : Bool := strContains r "GO/NO-GO: NO-GO"

/-- The revision prompt of `planner_agent.py` lines 504-529, abridged to its
dynamic structure: it embeds the lesson name, the full prior fact-check
verdict, and the evidence. -/
def revisionPrompt (lessonName fcr evidence : String) : String :=
  "You are an expert history teacher revising educational content based on " ++
  "fact-checker feedback.\n\n**ORIGINAL LESSON:** " ++ lessonName ++
  "\n\n**FACT CHECKER FEEDBACK:**\n" ++ fcr ++
  "\n\n**AVAILABLE EVIDENCE (USE ONLY THIS):**\n" ++ evidence ++
  "\n\n**YOUR TASK:**\nRewrite the teacher guide for this lesson, addressing " ++
  "ALL warnings from the fact checker.\n\nGenerate the revised teacher guide now:"

/-- Result of the revision loop: the final draft (`summary`), the final
fact-check verdict string, the value of `revision_attempt`, and — as an
observation of the Generation Service calls made — the list of regenerated
drafts in order. -/
structure RevisionResult where
  summary : String
  fact_check_result : String
  revision_attempt : Nat
  drafts : List String
  deriving Repr, DecidableEq

/-- The `while` loop of `planner_agent.py` lines 492-537, with
`regen k p` the Generation Service response to revision prompt `p` on the
`k`-th regeneration and `recheck k s` the Fact-Check Gate verdict for the
`k`-th regenerated draft `s`.  Structural recursion on `fuel`; the loop is
entered with `fuel = max_revision_attempts` and `revision_attempt = 0`, so
`fuel = max_revision_attempts - revision_attempt` at every reachable call and
the `fuel = 0` base case coincides with the `revision_attempt <
max_revision_attempts` guard failing. -/
def revisionLoopAux (regen : Nat → String → String) (recheck : Nat → String → String)
    (lessonName evidence : String) :
    Nat → String → String → Nat → RevisionResult
  | 0, summary, fcr, attempt => ⟨summary, fcr, attempt, []⟩
  | fuel + 1, summary, fcr, attempt =>
    if strContains fcr "GO/NO-GO: GO" then ⟨summary, fcr, attempt, []⟩
    else if attempt < max_revision_attempts then
      if !(isNoGoVerdict fcr || hasActionableWarnings fcr) then
        ⟨summary, fcr, attempt, []⟩
      else
        let attempt' := attempt + 1
        let summary' := regen attempt' (revisionPrompt lessonName fcr evidence)
        let fcr' := recheck attempt' summary'
        let rest := revisionLoopAux regen recheck lessonName evidence fuel summary' fcr' attempt'
        ⟨rest.summary, rest.fact_check_result, rest.revision_attempt, summary' :: rest.drafts⟩
    else ⟨summary, fcr, attempt, []⟩

/-- The revision loop as entered at `planner_agent.py` lines 489-492:
`revision_attempt = 0`, initial draft `summary0`, initial gate verdict `fcr0`. -/
def revisionLoop (regen recheck : Nat → String → String)
    (lessonName evidence summary0 fcr0 : String) : RevisionResult :=
  revisionLoopAux regen recheck lessonName evidence max_revision_attempts summary0 fcr0 0

/-- One record of `shared_context["fact_check_stats"]`. -/
structure FactCheckStat where
  lesson : String
  verdict : String
  details : String
  deriving Repr, DecidableEq

/-- The final-verdict recording after the loop, `planner_agent.py`
lines 539-561: appends exactly one stat record to `fact_check_stats`. -/
def recordFinalVerdict (lessonName : String) (res : RevisionResult)
    (stats : List FactCheckStat) : List FactCheckStat :=
  if strContains res.fact_check_result "GO/NO-GO: GO" then
    if 0 < res.revision_attempt then
      stats ++ [⟨lessonName, "GO (revised " ++ toString res.revision_attempt ++ "x)",
        res.fact_check_result⟩]
    else
      stats ++ [⟨lessonName, "GO", res.fact_check_result⟩]
  else
    stats ++ [⟨lessonName, "WARNING (tried " ++ toString res.revision_attempt ++
      " revisions)", res.fact_check_result⟩]

/-! ### `agents/planner_agent.py`: evidence cache and `_gather_evidence`
(lines 365-402) -/

/-- The per-job evidence cache (`shared_context["evidence_cache"]`, a Python
dict): an association list where the most recent binding wins on lookup. -/
abbrev Cache := List (String × String)

/-- Python `key in cache` / `cache[key]` lookup. -/
def cacheFind (c : Cache) (k : String) : Option String :=
  (c.find? (fun p => p.1 == k)).map (·.2)

/-- The deduplication loop of `_gather_evidence` lines 375-381: trim each
topic, keep it iff its lowercase form was not seen yet (first-seen order). -/
def dedupTopicsAux : List String → List String → List String
  | [], _ => []
  | t :: ts, seen =>
    let clean := pyStrip t
    if seen.contains (pyLower clean) then dedupTopicsAux ts seen
    else clean :: dedupTopicsAux ts (pyLower clean :: seen)

/-- Value `unique_topics` after the cap, `_gather_evidence` lines 375-383. -/
def uniqueTopics (topics : List String) : List String :=
  (dedupTopicsAux topics []).take MAX_WIKI_TOPICS

/-- Output of the research loop: the per-topic evidence blocks, the updated
cache, and the topics actually sent to the Research Adapter, in order. -/
structure GatherOut where
  parts : List String
  cache : Cache
  fetched : List String
  deriving Repr, DecidableEq

/-- The research loop of `_gather_evidence` lines 385-400: on cache hit emit
the stored text in a `(cached)` block, on miss call the Research Adapter
(`fetch`), store the result verbatim (failure strings included) and emit it. -/
def gatherLoop (fetch : String → String) : List String → Cache → GatherOut
  | [], cache => ⟨[], cache, []⟩
  | topic :: rest, cache =>
    match cacheFind cache (pyLower topic) with
    | some v =>
      let out := gatherLoop fetch rest cache
      ⟨("--- article: " ++ topic ++ " (cached) ---\n" ++ v ++ "\n") :: out.parts,
        out.cache, out.fetched⟩
    | none =>
      let result := fetch topic
      let out := gatherLoop fetch rest ((pyLower topic, result) :: cache)
      ⟨("--- article: " ++ topic ++ " ---\n" ++ result ++ "\n") :: out.parts,
        out.cache, topic :: out.fetched⟩

/-- Full result of `_gather_evidence`. -/
structure GatherResult where
  evidence : String
  cache : Cache
  fetched : List String
  deriving Repr, DecidableEq

/-- Function `_gather_evidence` from `planner_agent.py` lines 365-402. -/
def gather_evidence (fetch : String → String) (topics : List String)
    (cache : Cache) : GatherResult :=
  let out := gatherLoop fetch (uniqueTopics topics) cache
  ⟨pyJoin "\n" out.parts, out.cache, out.fetched⟩

/-- Spec-side definition for the refinement check of the topic cap claim.
Modelled from the spec words: "Deduplicates topics case-insensitively
preserving first-seen order" — an element (trimmed) is kept iff no
already-kept element has the same lowercase form. -/
def firstSeenDistinct (topics : List String) : List String :=
  (topics.map pyStrip).foldl
    (fun acc t => if acc.any (fun a => pyLower a == pyLower t) then acc else acc ++ [t]) []

/-! ### `agents/planner_agent.py`: Cross-Lesson Context
(`_orchestrate_history_package` lines 684-692, `_process_lesson` lines 540-605) -/

/-- One record of `shared_context["sources"]` (`planner_agent.py` lines 448-454). -/
structure SourceRec where
  lesson : String
  topic : String
  type : String
  title : String
  url : String
  deriving Repr, DecidableEq

/-- Record `shared_context` as initialized in `_orchestrate_history_package`
lines 684-692. -/
structure SharedContext where
  evidence_cache : Cache
  lesson_summaries : List String
  slide_titles : List String
  full_summaries : List String
  sources : List SourceRec
  fact_check_stats : List FactCheckStat
  deriving Repr, DecidableEq

/-- The fresh per-job context (`planner_agent.py` lines 685-692). -/
def initialSharedContext : SharedContext :=
  ⟨[], [], [], [], [], []⟩

/-- The data one `_process_lesson` call contributes to the shared context:
the lesson name and final draft, the cache after evidence gathering, the one
fact-check stat recorded, the sources kept after irrelevance filtering
(lines 563-566), and the titles of the generated slides (lines 603-605). -/
structure LessonOutcome where
  name : String
  summary : String
  newCache : Cache
  stat : FactCheckStat
  keptSources : List SourceRec
  newSlideTitles : List String
  deriving Repr, DecidableEq

/-- The window entry `f"{full_lesson_name}:\n{summary[:1000]}..."`
(`planner_agent.py` line 569). -/
def truncatedSummary (o : LessonOutcome) : String :=
  o.name ++ ":\n" ++ pyTake o.summary 1000 ++ "..."

/-- The shared-context mutation performed by one `_process_lesson` call
(`planner_agent.py` lines 540-605):
* `fact_check_stats.append(...)` — exactly one record (lines 543-561);
* `sources` extended with the kept sources (lines 563-566);
* `lesson_summaries.append(truncated)` then `pop(0)` when the length
  exceeds 2 (lines 568-571 — `pop(0)` drops the oldest entry);
* `full_summaries.append(summary)` (line 574);
* `slide_titles` extended with the new slide titles (lines 603-605);
* `evidence_cache` updated in place by `_gather_evidence` (line 422). -/
def updateSharedContext (ctx : SharedContext) (o : LessonOutcome) : SharedContext :=
  let ls := ctx.lesson_summaries ++ [truncatedSummary o]
  { evidence_cache := o.newCache
    lesson_summaries := if 2 < ls.length then ls.drop 1 else ls
    slide_titles := ctx.slide_titles ++ o.newSlideTitles
    full_summaries := ctx.full_summaries ++ [o.summary]
    sources := ctx.sources ++ o.keptSources
    fact_check_stats := ctx.fact_check_stats ++ [o.stat] }

/-- The context after a job processed the given lessons in order
(the sequential loop of `_orchestrate_history_package` lines 695-698). -/
def contextAfter (outs : List LessonOutcome) : SharedContext :=
  outs.foldl updateSharedContext initialSharedContext

/-! ### `agents/planner_agent.py`: deck poll (`_process_lesson` lines 621-634) -/

/-- The number of poll iterations, `range(60)` (`planner_agent.py` line 623). -/
def POLL_ATTEMPTS : Nat := 60

/-- The poll loop of `planner_agent.py` lines 622-627: up to `fuel` existence
checks; `ex i` tells whether `ppt_path.exists()` holds at the `i`-th check.
Returns `(ppt_ready, number of existence checks, number of 0.5-unit sleeps)`;
a sleep follows every failed check (the `break` precedes the sleep). -/
def pollLoopAux (ex : Nat → Bool) (i : Nat) : Nat → Bool × Nat × Nat
  | 0 => (false, 0, 0)
  | fuel + 1 =>
    if ex i then (true, 1, 0)
    else
      let out := pollLoopAux ex (i + 1) fuel
      (out.1, out.2.1 + 1, out.2.2 + 1)

/-- The full bounded wait for the deck artifact. -/
def pollForDeck (ex : Nat → Bool) : Bool × Nat × Nat :=
  pollLoopAux ex 0 POLL_ATTEMPTS

/-- Elapsed waiting time in the spec's time units: each sleep is
`asyncio.sleep(0.5)` (`planner_agent.py` line 627). -/
def pollElapsedUnits (sleeps : Nat) : ℚ :=
  (sleeps : ℚ) * (1 / 2)

/-- The Lesson Artifact returned by `_process_lesson` (lines 629-634):
`ppt_path` is populated only when the poll saw the file. -/
structure LessonArtifact where
  lesson_name : String
  topics : List String
  ppt_path : Option String
  docx_path : Option String
  deriving Repr, DecidableEq

/-- The tail of `_process_lesson` from the deck poll to the returned artifact
(lines 621-634): the lesson returns normally whether or not the deck appeared. -/
def finishDeckWait (ex : Nat → Bool) (name : String) (topics : List String)
    (pptPath : String) (docxPath : Option String) : LessonArtifact :=
  { lesson_name := name
    topics := topics
    ppt_path := if (pollForDeck ex).1 then some pptPath else none
    docx_path := docxPath }

/-! ### `agents/planner_agent.py`: slide JSON degradation
(`_safe_json_loads` result handling, lines 593-605) -/

/-- Python values as produced by `json.loads` (the dynamic result of
`_safe_json_loads`). -/
inductive PyJson where
  | null
  | bool (b : Bool)
  | num (n : Int)
  | str (s : String)
  | arr (items : List PyJson)
  | obj (fields : List (String × PyJson))

/-- Python truthiness (`if not slides_list`). -/
def pyFalsy : PyJson → Bool
  | .null => true
  | .bool b => !b
  | .num n => n == 0
  | .str s => s == ""
  | .arr l => l.isEmpty
  | .obj f => f.isEmpty

/-- Python `d.get(k, dflt)` on a dict. -/
def dictGet (d : List (String × PyJson)) (k : String) (dflt : PyJson) : PyJson :=
  match d.find? (fun p => p.1 == k) with
  | some p => p.2
  | none => dflt

/-- Python `d[k] = v` on a dict: replace in place if present, else append. -/
def dictSet (d : List (String × PyJson)) (k : String) (v : PyJson) :
    List (String × PyJson) :=
  if d.any (fun p => p.1 == k) then
    d.map (fun p => if p.1 == k then (p.1, v) else p)
  else d ++ [(k, v)]

/-- Function `_extract_notes_from_summary` from `planner_agent.py` lines 272-287:
split the teacher summary on blank lines into stripped non-empty sections and
give slide `i` section `i` as notes (or `""` past the end).  A non-dict slide
would raise `TypeError` in Python; that case is unreachable here because the
caller passes JSON-array elements produced as objects. -/
def extract_notes_from_summary (teacher_summary : String) (slides : List PyJson) :
    List PyJson :=
  let sections := ((pySplit teacher_summary "\n\n").map pyStrip).filter (· ≠ "")
  slides.mapIdx (fun i slide =>
    match slide with
    | .obj f => .obj (dictSet f "notes" (.str (sections.getD i "")))
    | other => other)

/-- The placeholder slide substituted on slide-generation failure
(`planner_agent.py` line 598). -/
def errorPlaceholderSlide : PyJson :=
  .obj [("title", .str "Error generating slides"),
        ("bullets", .arr [.str "Check logs."]),
        ("notes", .str "Slide generation failed.")]

/-- Lines 593-601 of `planner_agent.py`: take the parsed slide-generation output
(`slides_data`, the dict returned by `_safe_json_loads` — the empty dict when
parsing failed entirely), read `slides_data.get("slides", [])`, and either
substitute the single placeholder slide (falsy value) or attach notes.
A truthy non-list `"slides"` value would raise `TypeError` inside
`_extract_notes_from_summary` in Python; that case is modelled as `none`. -/
def resolveSlides (slides_data : List (String × PyJson)) (summary : String) :
    Option (List PyJson) :=
  match dictGet slides_data "slides" (.arr []) with
  | .arr [] => some [errorPlaceholderSlide]
  | .arr l => some (extract_notes_from_summary summary l)
  | v => if pyFalsy v then some [errorPlaceholderSlide] else none

/-- The remainder of `_process_lesson` after slide resolution (lines 603-634):
with any resolved slide list the lesson proceeds to the deck handoff and
returns its artifact — the job does not abort on a placeholder slide. -/
def lessonTailAfterSlides (slides_data : List (String × PyJson)) (summary : String)
    (ex : Nat → Bool) (name : String) (topics : List String)
    (pptPath : String) (docxPath : Option String) :
    Option (List PyJson × LessonArtifact) :=
  match resolveSlides slides_data summary with
  | none => none
  | some slides => some (slides, finishDeckWait ex name topics pptPath docxPath)

/-! ### `agents/request_reviewer_agent.py` and the gate in `bot/main.py` -/

/-- A Python runtime value as seen by the reviewer agent: either a string or
an un-awaited coroutine object. -/
inductive PyVal where
  | str (s : String)
  | coroutine (fn : String)
  deriving Repr, DecidableEq

/-- Line 19 of `utils/llm.py` declares `generate` as `async def`; the call
`generate(prompt, temperature=0.2, max_tokens=150)` in the synchronous
`is_history_related` (`request_reviewer_agent.py` line 63) is not awaited, so
its value is a coroutine object, never a string. -/
def generate_unawaited (_prompt : String) : PyVal := .coroutine "generate"

/-- Calling `.strip()` on the value: succeeds on a string, raises
`AttributeError` on a coroutine object. -/
def pyStripMethod : PyVal → Except String String
  | .str s => .ok (pyStrip s)
  | .coroutine _ => .error "AttributeError: coroutine object has no attribute strip"

/-- The validator prompt of `request_reviewer_agent.py` lines 32-61, abridged
to its dynamic structure. -/
def validatorPrompt (request : String) : String :=
  "You are a strict request validator for a history education system.\n" ++
  "REQUEST TO EVALUATE:\n\"" ++ request ++ "\"\n" ++
  "Respond in this EXACT format:\nVERDICT: APPROVED or REJECTED\n" ++
  "REASON: <one clear sentence explaining your decision>"

/-- The rejection message of `request_reviewer_agent.py` lines 89-103,
abridged to its dynamic structure. -/
def rejectionMessage (reason : String) : String :=
  "❌ **Request Rejected: Not History-Related**\n\n" ++ reason ++
  "\n\n**This system only processes history-related educational content.**\n" ++
  "Please reformulate your request to focus on a historical topic."

/-- Python `s.split(":", 1)[1]`: everything after the first colon. -/
def afterFirstColon (s : String) : String :=
  pyJoin ":" ((pySplit s ":").tail)

/-- The response parsing of `request_reviewer_agent.py` lines 65-104, applied
to the (stripped) validator response: pick the last `VERDICT:`/`REASON:`
lines, approve iff the verdict line contains `APPROVED`, and build the
approval or rejection message. -/
def parse_review_response (response_stripped : String) : Bool × String :=
  let lines := (pySplit response_stripped "\n").map pyStrip
  let verdict_line :=
    ((lines.filter (fun l => pyStartsWith (pyUpper l) "VERDICT:")).getLast?).getD ""
  let reason_line :=
    ((lines.filter (fun l => pyStartsWith (pyUpper l) "REASON:")).getLast?).getD ""
  let is_approved := strContains (pyUpper verdict_line) "APPROVED"
  let reason :=
    if reason_line ≠ "" then
      if strContains reason_line ":" then pyStrip (afterFirstColon reason_line)
      else reason_line
    else "No reason provided"
  if is_approved then (true, "✅ Request approved: " ++ reason)
  else (false, rejectionMessage reason)

/-- Function `is_history_related` from `request_reviewer_agent.py` lines 19-104:
`response = generate(...)` (un-awaited), then `response.strip()` — which is
where Python raises — then the parse.  `Except.error` models a raised
exception. -/
def is_history_related (request : String) : Except String (Bool × String) := do
  let response := generate_unawaited (validatorPrompt request)
  let stripped ← pyStripMethod response
  pure (parse_review_response stripped)

/-- The record `review_request` promises to return
(`request_reviewer_agent.py` lines 107-123). -/
structure ReviewResult where
  approved : Bool
  message : String
  original_request : String
  deriving Repr, DecidableEq

/-- Function `review_request` from `request_reviewer_agent.py` lines 107-123. -/
def review_request (request : String) : Except String ReviewResult := do
  let r ← is_history_related request
  pure ⟨r.1, r.2, request⟩

/-- Outcome of the `/task` command handler. -/
inductive TaskOutcome where
  | raised (err : String)
  | rejected (message : String)
  | routed (query : String)
  deriving Repr, DecidableEq

/-- The gating logic of `task_cmd` in `bot/main.py` lines 124-144: review
first; a non-approved request is answered with the rejection message and
`route_task` (the entry into the Unit Orchestrator pipeline) is never called;
an exception escaping `review_request` propagates out of the handler. -/
def task_cmd (query : String) : TaskOutcome :=
  match review_request query with
  | .error e => .raised e
  | .ok r => if r.approved then .routed query else .rejected r.message

/-! ### Concrete oracle instances used to exercise the loop on closed runs -/

/-- A NO-GO gate verdict with a concrete actionable warning. -/
def noGoWithWarningsVerdict : String :=
  "GO/NO-GO: NO-GO\nConfidence: High\nReason: dates are unsupported\n" ++
  "Warnings: The 1066 date is not in the evidence"

/-- A NO-GO gate verdict whose warnings field is literally `None`. -/
def noGoNoneWarningsVerdict : String :=
  "GO/NO-GO: NO-GO\nConfidence: High\nReason: unsupported claims\nWarnings: None"

/-- A verdict that is neither GO nor NO-GO and carries no warnings. -/
def unclearVerdict : String :=
  "GO/NO-GO: UNCLEAR\nConfidence: Low\nReason: ambiguous output\nWarnings: None"

/-- A Generation Service stub for regenerated drafts. -/
def regenStub (k : Nat) (_prompt : String) : String := "revised draft " ++ toString k

/-- A Fact-Check Gate stub that always answers NO-GO with a warning. -/
def recheckAlwaysNoGo (_k : Nat) (_draft : String) : String := noGoWithWarningsVerdict

/-- A Fact-Check Gate stub that always answers NO-GO with warnings `None`. -/
def recheckAlwaysNoGoNone (_k : Nat) (_draft : String) : String := noGoNoneWarningsVerdict

/-- A Research Adapter stub that always returns its failure string
(the shape of `[britannica] No results for '<topic>'.` in `utils/tools.py`). -/
def fetchFailStub (q : String) : String := "[britannica] No results for " ++ q ++ "."

/-- A concrete lesson outcome used to exercise the context fold. -/
def outcomeStub (k : Nat) : LessonOutcome :=
  { name := "Lesson " ++ toString k
    summary := "Summary text " ++ toString k
    newCache := []
    stat := ⟨"Lesson " ++ toString k, "GO", "GO/NO-GO: GO"⟩
    keptSources := []
    newSlideTitles := ["Slide " ++ toString k] }

/-! ## Theorems -/

/-- The loop counter grows by at most the available fuel. -/
theorem revisionLoopAux_attempt_le (regen recheck : Nat → String → String)
    (ln ev : String) :
    ∀ fuel s r att,
      (revisionLoopAux regen recheck ln ev fuel s r att).revision_attempt ≤ att + fuel := by
  intro fuel
  induction fuel with
  | zero => intro s r att; simp [revisionLoopAux]
  | succ n ih =>
    intro s r att
    simp only [revisionLoopAux]
    split
    · simp
    · split
      · split
        · simp
        · exact (ih _ _ _).trans (by omega)
      · simp

/-- Each loop iteration that increments the counter generates exactly one
draft: the counter equals the starting counter plus the drafts generated. -/
theorem revisionLoopAux_attempt_eq_drafts (regen recheck : Nat → String → String)
    (ln ev : String) :
    ∀ fuel s r att,
      (revisionLoopAux regen recheck ln ev fuel s r att).revision_attempt =
        att + (revisionLoopAux regen recheck ln ev fuel s r att).drafts.length := by
  intro fuel
  induction fuel with
  | zero => intro s r att; simp [revisionLoopAux]
  | succ n ih =>
    intro s r att
    simp only [revisionLoopAux]
    split
    · simp
    · split
      · split
        · simp
        · simp only [List.length_cons]
          rw [ih]
          omega
      · simp

/-- The loop never discards a draft: the resulting summary is the last
generated draft, or the initial draft when none was generated. -/
theorem revisionLoopAux_summary_eq (regen recheck : Nat → String → String)
    (ln ev : String) :
    ∀ fuel s r att,
      (revisionLoopAux regen recheck ln ev fuel s r att).summary =
        (revisionLoopAux regen recheck ln ev fuel s r att).drafts.getLastD s := by
  intro fuel
  induction fuel with
  | zero => intro s r att; simp [revisionLoopAux]
  | succ n ih =>
    intro s r att
    simp only [revisionLoopAux]
    split
    · simp
    · split
      · split
        · simp
        · simp only [List.getLastD_cons]
          exact ih _ _ _
      · simp

/-- Early exit of the loop requires fuel only when issues exist: a verdict
that is neither NO-GO nor carries actionable warnings stops the loop at once. -/
theorem revisionLoopAux_early_exit (regen recheck : Nat → String → String)
    (ln ev : String) (fuel : Nat) (s r : String) (att : Nat)
    (hngo : isNoGoVerdict r = false) (hw : hasActionableWarnings r = false) :
    revisionLoopAux regen recheck ln ev fuel s r att = ⟨s, r, att, []⟩ := by
  cases fuel with
  | zero => rfl
  | succ n =>
    simp only [revisionLoopAux]
    split
    · rfl
    · split
      · simp [hngo, hw]
      · rfl

/-- C2: revision-loop termination and best-available draft — for every
sequence of Gate verdicts (`recheck`) and Generation Service responses
(`regen`), the loop stops after at most 4 regenerations, the kept draft is
the last one generated (the initial draft when none was), and when the final
verdict still lacks the GO marker a `WARNING (tried n revisions)` record is
appended to `fact_check_stats` instead of the lesson failing. -/
theorem revision_loop_termination (regen recheck : Nat → String → String)
    (ln ev s0 r0 : String) (stats : List FactCheckStat) :
    (revisionLoop regen recheck ln ev s0 r0).revision_attempt ≤ 4 ∧
    (revisionLoop regen recheck ln ev s0 r0).drafts.length =
      (revisionLoop regen recheck ln ev s0 r0).revision_attempt ∧
    (revisionLoop regen recheck ln ev s0 r0).summary =
      (revisionLoop regen recheck ln ev s0 r0).drafts.getLastD s0 ∧
    (strContains (revisionLoop regen recheck ln ev s0 r0).fact_check_result
        "GO/NO-GO: GO" = false →
      recordFinalVerdict ln (revisionLoop regen recheck ln ev s0 r0) stats =
        stats ++ [⟨ln,
          "WARNING (tried " ++
            toString (revisionLoop regen recheck ln ev s0 r0).revision_attempt ++
            " revisions)",
          (revisionLoop regen recheck ln ev s0 r0).fact_check_result⟩]) := by
  refine ⟨?_, ?_, ?_, ?_⟩
  · have h := revisionLoopAux_attempt_le regen recheck ln ev max_revision_attempts s0 r0 0
    simpa [revisionLoop, max_revision_attempts] using h
  · have h := revisionLoopAux_attempt_eq_drafts regen recheck ln ev max_revision_attempts s0 r0 0
    simp only [revisionLoop]
    omega
  · exact revisionLoopAux_summary_eq regen recheck ln ev max_revision_attempts s0 r0 0
  · intro h
    simp [recordFinalVerdict, h]

/-- Witness for C2: with a Gate that always answers NO-GO with a non-empty
warning, the loop stops at exactly 4 regenerations and the WARNING record is
appended. -/
theorem revision_loop_termination_witness :
    strContains (revisionLoop regenStub recheckAlwaysNoGo "L1" "EVIDENCE" "draft0"
        noGoWithWarningsVerdict).fact_check_result "GO/NO-GO: GO" = false ∧
    (revisionLoop regenStub recheckAlwaysNoGo "L1" "EVIDENCE" "draft0"
        noGoWithWarningsVerdict).revision_attempt = 4 ∧
    recordFinalVerdict "L1" (revisionLoop regenStub recheckAlwaysNoGo "L1" "EVIDENCE"
        "draft0" noGoWithWarningsVerdict) [] =
      [] ++ [⟨"L1",
        "WARNING (tried " ++
          toString (revisionLoop regenStub recheckAlwaysNoGo "L1" "EVIDENCE" "draft0"
            noGoWithWarningsVerdict).revision_attempt ++
          " revisions)",
        (revisionLoop regenStub recheckAlwaysNoGo "L1" "EVIDENCE" "draft0"
          noGoWithWarningsVerdict).fact_check_result⟩] :=
  ⟨by decide, by decide,
    (revision_loop_termination regenStub recheckAlwaysNoGo "L1" "EVIDENCE" "draft0"
      noGoWithWarningsVerdict []).2.2.2 (by decide)⟩

/-- C1 counterexample: a first Gate response with decision NO-GO whose
warnings field is literally `None` does NOT exit with zero regenerations —
the loop regenerates (here, reaching the 4-attempt cap), because the exit
test `not (is_no_go or has_warnings)` fails whenever the NO-GO marker is
present, warnings or not. -/
theorem revision_loop_early_exit_counterexample :
    isNoGoVerdict noGoNoneWarningsVerdict = true ∧
    hasActionableWarnings noGoNoneWarningsVerdict = false ∧
    strContains noGoNoneWarningsVerdict "GO/NO-GO: GO" = false ∧
    (revisionLoop regenStub recheckAlwaysNoGoNone "L1" "EVIDENCE" "draft0"
      noGoNoneWarningsVerdict).revision_attempt = 4 ∧
    (revisionLoop regenStub recheckAlwaysNoGoNone "L1" "EVIDENCE" "draft0"
      noGoNoneWarningsVerdict).drafts ≠ [] := by
  decide

/-- C1 amended: zero regenerations happen exactly on the no-actionable-issues
exit — whenever the first Gate response does not contain the NO-GO marker and
its warnings field is empty or `None`, the loop performs zero regenerations
(a first response with decision NO-GO triggers a regeneration even when its
warnings field is `None`, as the counterexample shows). -/
theorem revision_loop_early_exit_amended (regen recheck : Nat → String → String)
    (ln ev s0 r0 : String) (hngo : isNoGoVerdict r0 = false)
    (hw : hasActionableWarnings r0 = false) :
    revisionLoop regen recheck ln ev s0 r0 = ⟨s0, r0, 0, []⟩ :=
  revisionLoopAux_early_exit regen recheck ln ev max_revision_attempts s0 r0 0 hngo hw

/-- Witness for the amended C1: an ambiguous (neither GO nor NO-GO) first
verdict with warnings `None` exits with zero regenerations. -/
theorem revision_loop_early_exit_amended_witness :
    isNoGoVerdict unclearVerdict = false ∧
    hasActionableWarnings unclearVerdict = false ∧
    revisionLoop regenStub recheckAlwaysNoGoNone "L1" "EVIDENCE" "draft0"
      unclearVerdict = ⟨"draft0", unclearVerdict, 0, []⟩ :=
  ⟨by decide, by decide,
    revision_loop_early_exit_amended regenStub recheckAlwaysNoGoNone "L1" "EVIDENCE"
      "draft0" unclearVerdict (by decide) (by decide)⟩

/-- C5: Fact-Check Gate short-circuit — if the evidence string is empty or
its stripped length is below 20 characters, the gate returns the verdict
containing decision UNKNOWN and makes zero Generation Service calls; in
particular this covers evidence `""`. -/
theorem fact_check_gate_short_circuit (gen : String → String)
    (draft evidence : String)
    (h : evidence = "" ∨ (pyStrip evidence).length < 20) :
    fact_checker_agent gen draft evidence = (noEvidenceVerdict, 0) ∧
    strContains noEvidenceVerdict "UNKNOWN" = true := by
  refine ⟨?_, by decide⟩
  unfold fact_checker_agent
  exact if_pos h

/-- Witness for C5: the gate called with evidence `""` yields the UNKNOWN
verdict and zero generation calls. -/
theorem fact_check_gate_short_circuit_witness :
    fact_checker_agent (fun _ => "GO/NO-GO: GO") "Some draft text." "" =
      (noEvidenceVerdict, 0) ∧
    strContains noEvidenceVerdict "UNKNOWN" = true :=
  fact_check_gate_short_circuit (fun _ => "GO/NO-GO: GO") "Some draft text." ""
    (Or.inl rfl)

/-- When the file never exists, every iteration of the poll loop fails,
sleeps, and continues: `fuel` checks and `fuel` sleeps happen in total. -/
theorem pollLoopAux_never (ex : Nat → Bool) (h : ∀ j, ex j = false) :
    ∀ fuel i, pollLoopAux ex i fuel = (false, fuel, fuel) := by
  intro fuel
  induction fuel with
  | zero => intro i; rfl
  | succ n ih =>
    intro i
    simp [pollLoopAux, h i, ih (i + 1)]

/-- C7: deck-poll bound — when the deck artifact never appears, the wait
performs exactly 60 existence polls and 60 sleeps of 0.5 time units
(30 time units total, hence ≤ 30), and the lesson still returns an artifact
whose deck path is null. -/
theorem deck_poll_bound (ex : Nat → Bool) (h : ∀ j, ex j = false)
    (name pptPath : String) (topics : List String) (docxPath : Option String) :
    pollForDeck ex = (false, 60, 60) ∧
    (pollForDeck ex).2.1 ≤ 60 ∧
    pollElapsedUnits (pollForDeck ex).2.2 = 30 ∧
    pollElapsedUnits (pollForDeck ex).2.2 ≤ 30 ∧
    (finishDeckWait ex name topics pptPath docxPath).ppt_path = none ∧
    (finishDeckWait ex name topics pptPath docxPath).lesson_name = name := by
  have hp : pollForDeck ex = (false, 60, 60) := pollLoopAux_never ex h 60 0
  refine ⟨hp, ?_, ?_, ?_, ?_, rfl⟩
  · rw [hp]
  · rw [hp]; norm_num [pollElapsedUnits]
  · rw [hp]; norm_num [pollElapsedUnits]
  · unfold finishDeckWait
    rw [hp]
    rfl

/-- Witness for C7: with a file that never appears, the poll returns after
exactly 60 polls / 30 time units and the artifact's deck path is null. -/
theorem deck_poll_bound_witness :
    pollForDeck (fun _ => false) = (false, 60, 60) ∧
    (pollForDeck (fun _ => false)).2.1 ≤ 60 ∧
    pollElapsedUnits (pollForDeck (fun _ => false)).2.2 = 30 ∧
    pollElapsedUnits (pollForDeck (fun _ => false)).2.2 ≤ 30 ∧
    (finishDeckWait (fun _ => false) "Lesson 1 - The Bastille" ["Bastille"]
      "outputs/lesson-1.pptx" none).ppt_path = none ∧
    (finishDeckWait (fun _ => false) "Lesson 1 - The Bastille" ["Bastille"]
      "outputs/lesson-1.pptx" none).lesson_name = "Lesson 1 - The Bastille" :=
  deck_poll_bound (fun _ => false) (fun _ => rfl) "Lesson 1 - The Bastille"
    "outputs/lesson-1.pptx" ["Bastille"] none

/-- C9: malformed slide JSON degradation — whenever the lenient parse result
has no non-empty slide list (its `"slides"` entry is falsy, as for the empty
dict that `_safe_json_loads` returns on total parse failure), exactly one
placeholder error slide is substituted and the lesson still yields its
artifact: the job does not abort. -/
theorem malformed_slide_json_placeholder (slides_data : List (String × PyJson))
    (summary : String) (ex : Nat → Bool) (name : String) (topics : List String)
    (pptPath : String) (docxPath : Option String)
    (h : pyFalsy (dictGet slides_data "slides" (.arr [])) = true) :
    resolveSlides slides_data summary = some [errorPlaceholderSlide] ∧
    (∀ slides, resolveSlides slides_data summary = some slides → slides.length = 1) ∧
    lessonTailAfterSlides slides_data summary ex name topics pptPath docxPath =
      some ([errorPlaceholderSlide], finishDeckWait ex name topics pptPath docxPath) := by
  have hres : resolveSlides slides_data summary = some [errorPlaceholderSlide] := by
    unfold resolveSlides
    rcases hv : dictGet slides_data "slides" (.arr []) with _ | b | n | s | items | fields
    · rfl
    · rw [hv] at h; simp [pyFalsy] at h; simp [h, pyFalsy]
    · rw [hv] at h; simp [pyFalsy] at h; simp [h, pyFalsy]
    · rw [hv] at h; simp [pyFalsy] at h; simp [h, pyFalsy]
    · rw [hv] at h
      cases items with
      | nil => rfl
      | cons a l => simp [pyFalsy] at h
    · rw [hv] at h; simp [pyFalsy] at h; simp [h, pyFalsy]
  refine ⟨hres, ?_, ?_⟩
  · intro slides hs
    rw [hres] at hs
    cases hs
    rfl
  · unfold lessonTailAfterSlides
    rw [hres]

/-- Witness for C9: the empty dict (total parse failure) yields exactly the
single placeholder slide and a completed lesson artifact. -/
theorem malformed_slide_json_placeholder_witness :
    pyFalsy (dictGet [] "slides" (.arr [])) = true ∧
    resolveSlides [] "Some teacher summary." = some [errorPlaceholderSlide] ∧
    lessonTailAfterSlides [] "Some teacher summary." (fun _ => false)
      "Lesson 1 - X" [] "outputs/x.pptx" none =
      some ([errorPlaceholderSlide],
        finishDeckWait (fun _ => false) "Lesson 1 - X" [] "outputs/x.pptx" none) := by
  have h := malformed_slide_json_placeholder [] "Some teacher summary."
    (fun _ => false) "Lesson 1 - X" [] "outputs/x.pptx" none rfl
  exact ⟨rfl, h.1, h.2.2⟩

/-- C8 (code evaluation): `review_request` raises for every request — the
un-awaited `generate` coroutine has no `strip` attribute — so it never
returns the promised record, and consequently no request (approved or not)
ever reaches `route_task`, the entry into the Unit Orchestrator. -/
theorem review_request_always_raises (request : String) :
    review_request request =
      .error "AttributeError: coroutine object has no attribute strip" ∧
    task_cmd request =
      .raised "AttributeError: coroutine object has no attribute strip" ∧
    (∀ q, task_cmd request ≠ .routed q) ∧
    (∀ r, review_request request ≠ .ok r) := by
  refine ⟨rfl, rfl, ?_, ?_⟩
  · intro q hq
    rw [show task_cmd request =
      .raised "AttributeError: coroutine object has no attribute strip" from rfl] at hq
    cases hq
  · intro r hr
    rw [show review_request request =
      .error "AttributeError: coroutine object has no attribute strip" from rfl] at hr
    cases hr


/-- C3: evidence-cache idempotence — gathering evidence for a topic twice
against one shared cache calls the Research Adapter at most once for it; the
second gathering performs no fetch, leaves the cache unchanged, and returns
the text stored by the first gathering (this holds for failure strings too,
since whatever `fetch` returned is stored verbatim). -/
theorem evidence_cache_idempotence (fetch : String → String) (t : String) (c0 : Cache) :
    (gather_evidence fetch [t] ((gather_evidence fetch [t] c0).cache)).fetched = [] ∧
    (gather_evidence fetch [t] c0).fetched.length +
      (gather_evidence fetch [t] ((gather_evidence fetch [t] c0).cache)).fetched.length ≤ 1 ∧
    (gather_evidence fetch [t] ((gather_evidence fetch [t] c0).cache)).cache =
      (gather_evidence fetch [t] c0).cache ∧
    cacheFind (gather_evidence fetch [t] c0).cache (pyLower (pyStrip t)) ≠ none ∧
    (gather_evidence fetch [t] ((gather_evidence fetch [t] c0).cache)).evidence =
      "--- article: " ++ pyStrip t ++ " (cached) ---\n" ++
        ((cacheFind (gather_evidence fetch [t] c0).cache (pyLower (pyStrip t))).getD "")
        ++ "\n" ∧
    (cacheFind c0 (pyLower (pyStrip t)) = none →
      (gather_evidence fetch [t] c0).fetched = [pyStrip t] ∧
      cacheFind (gather_evidence fetch [t] c0).cache (pyLower (pyStrip t)) =
        some (fetch (pyStrip t)) ∧
      (gather_evidence fetch [t] c0).evidence =
        "--- article: " ++ pyStrip t ++ " ---\n" ++ fetch (pyStrip t) ++ "\n") := by
  rcases hc : cacheFind c0 (pyLower (pyStrip t)) with _ | v
  · have h1 : gather_evidence fetch [t] c0 =
        ⟨"--- article: " ++ pyStrip t ++ " ---\n" ++ fetch (pyStrip t) ++ "\n",
         (pyLower (pyStrip t), fetch (pyStrip t)) :: c0, [pyStrip t]⟩ := by
      simp [gather_evidence, uniqueTopics, dedupTopicsAux, gatherLoop, MAX_WIKI_TOPICS,
        hc, pyJoin]
    have hfind : cacheFind ((pyLower (pyStrip t), fetch (pyStrip t)) :: c0)
        (pyLower (pyStrip t)) = some (fetch (pyStrip t)) := by
      simp [cacheFind, List.find?]
    have h2 : gather_evidence fetch [t]
        ((pyLower (pyStrip t), fetch (pyStrip t)) :: c0) =
        ⟨"--- article: " ++ pyStrip t ++ " (cached) ---\n" ++ fetch (pyStrip t) ++ "\n",
         (pyLower (pyStrip t), fetch (pyStrip t)) :: c0, []⟩ := by
      simp [gather_evidence, uniqueTopics, dedupTopicsAux, gatherLoop, MAX_WIKI_TOPICS,
        hfind, pyJoin]
    rw [h1]
    refine ⟨?_, ?_, ?_, ?_, ?_, ?_⟩
    · simp [h2]
    · simp [h2]
    · simp [h2]
    · simp [hfind]
    · simp [h2, hfind]
    · intro _
      exact ⟨rfl, hfind, rfl⟩
  · have h1 : gather_evidence fetch [t] c0 =
        ⟨"--- article: " ++ pyStrip t ++ " (cached) ---\n" ++ v ++ "\n", c0, []⟩ := by
      simp [gather_evidence, uniqueTopics, dedupTopicsAux, gatherLoop, MAX_WIKI_TOPICS,
        hc, pyJoin]
    rw [h1]
    refine ⟨?_, ?_, ?_, ?_, ?_, ?_⟩
    · simp [h1]
    · simp [h1]
    · simp [h1]
    · simp [hc]
    · simp [h1, hc]
    · intro hnone
      simp at hnone

/-- Witness for C3: a fresh topic fetched by an always-failing Research
Adapter is fetched once, its failure string is cached, and the second
gathering fetches nothing. -/
theorem evidence_cache_idempotence_witness :
    (gather_evidence fetchFailStub ["Korean War 1950-1953"] []).fetched =
      [pyStrip "Korean War 1950-1953"] ∧
    cacheFind (gather_evidence fetchFailStub ["Korean War 1950-1953"] []).cache
        (pyLower (pyStrip "Korean War 1950-1953")) =
      some (fetchFailStub (pyStrip "Korean War 1950-1953")) ∧
    (gather_evidence fetchFailStub ["Korean War 1950-1953"]
      ((gather_evidence fetchFailStub ["Korean War 1950-1953"] []).cache)).fetched = [] := by
  have h := evidence_cache_idempotence fetchFailStub "Korean War 1950-1953" []
  have himpl := h.2.2.2.2.2 (by decide)
  exact ⟨himpl.1, himpl.2.1, h.1⟩

/-- Membership: `List.contains` agrees with membership for strings. -/
theorem stringList_contains_iff (l : List String) (x : String) :
    l.contains x = true ↔ x ∈ l := by
  simp [List.contains_iff_exists_mem_beq]

/-- Class-level membership in the deduplicated topic list: a lowercase class
appears among the kept topics iff it is the class of some input topic and was
not already seen. -/
theorem dedupTopicsAux_lower_mem :
    ∀ (ts : List String) (seen : List String) (y : String),
      y ∈ (dedupTopicsAux ts seen).map pyLower ↔
        (y ∈ ts.map (fun t => pyLower (pyStrip t)) ∧ y ∉ seen) := by
  intro ts
  induction ts with
  | nil => intro seen y; simp [dedupTopicsAux]
  | cons t ts ih =>
    intro seen y
    by_cases hmem : pyLower (pyStrip t) ∈ seen
    · have hc : seen.contains (pyLower (pyStrip t)) = true :=
        (stringList_contains_iff seen (pyLower (pyStrip t))).mpr hmem
      simp only [dedupTopicsAux, hc, if_true, List.map_cons, List.mem_cons, ih]
      constructor
      · rintro ⟨hy, hns⟩
        exact ⟨Or.inr hy, hns⟩
      · rintro ⟨hy | hy, hns⟩
        · exact absurd (hy ▸ hmem) hns
        · exact ⟨hy, hns⟩
    · have hc : seen.contains (pyLower (pyStrip t)) = false := by
        by_contra hne
        exact hmem ((stringList_contains_iff seen (pyLower (pyStrip t))).mp
          (by revert hne; cases seen.contains (pyLower (pyStrip t)) <;> simp))
      simp only [dedupTopicsAux, hc, Bool.false_eq_true, if_false, List.map_cons,
        List.mem_cons, ih]
      constructor
      · rintro (hy | ⟨hy, hns⟩)
        · exact ⟨Or.inl hy, hy ▸ hmem⟩
        · exact ⟨Or.inr hy, fun hin => hns (Or.inr hin)⟩
      · rintro ⟨hy | hy, hns⟩
        · exact Or.inl hy
        · by_cases hhead : y = pyLower (pyStrip t)
          · exact Or.inl hhead
          · exact Or.inr ⟨hy, by simp [hhead, hns]⟩

/-- The lowercase classes of the deduplicated topic list are pairwise
distinct. -/
theorem dedupTopicsAux_classes_nodup :
    ∀ (ts : List String) (seen : List String),
      ((dedupTopicsAux ts seen).map pyLower).Nodup := by
  intro ts
  induction ts with
  | nil => intro seen; simp [dedupTopicsAux]
  | cons t ts ih =>
    intro seen
    by_cases hmem : pyLower (pyStrip t) ∈ seen
    · have hc : seen.contains (pyLower (pyStrip t)) = true :=
        (stringList_contains_iff seen (pyLower (pyStrip t))).mpr hmem
      simp only [dedupTopicsAux, hc, if_true]
      exact ih seen
    · have hc : seen.contains (pyLower (pyStrip t)) = false := by
        by_contra hne
        exact hmem ((stringList_contains_iff seen (pyLower (pyStrip t))).mp
          (by revert hne; cases seen.contains (pyLower (pyStrip t)) <;> simp))
      simp only [dedupTopicsAux, hc, Bool.false_eq_true, if_false, List.map_cons]
      refine List.Nodup.cons ?_ (ih _)
      intro hin
      have := (dedupTopicsAux_lower_mem ts (pyLower (pyStrip t) :: seen)
        (pyLower (pyStrip t))).mp hin
      exact this.2 (List.mem_cons_self _ _)

/-- Starting from an empty seen-set, the deduplicated list has exactly one
entry per distinct lowercase class of the (trimmed) input topics. -/
theorem dedupTopicsAux_length (ts : List String) :
    (dedupTopicsAux ts []).length =
      ((ts.map (fun t => pyLower (pyStrip t))).dedup).length := by
  have hnd := dedupTopicsAux_classes_nodup ts []
  have hset : ((dedupTopicsAux ts []).map pyLower).toFinset =
      ((ts.map (fun t => pyLower (pyStrip t)))).toFinset := by
    ext y
    simp only [List.mem_toFinset]
    rw [dedupTopicsAux_lower_mem]
    simp
  calc (dedupTopicsAux ts []).length
      = ((dedupTopicsAux ts []).map pyLower).length := (List.length_map _ _).symm
    _ = ((dedupTopicsAux ts []).map pyLower).toFinset.card :=
        (List.toFinset_card_of_nodup hnd).symm
    _ = ((ts.map (fun t => pyLower (pyStrip t)))).toFinset.card := by rw [hset]
    _ = ((ts.map (fun t => pyLower (pyStrip t))).dedup).length := List.card_toFinset _

/-- The deduplicated topic list is a subsequence of the trimmed input topics
(first-seen order is preserved). -/
theorem dedupTopicsAux_sublist :
    ∀ (ts : List String) (seen : List String),
      (dedupTopicsAux ts seen).Sublist (ts.map pyStrip) := by
  intro ts
  induction ts with
  | nil => intro seen; simp [dedupTopicsAux]
  | cons t ts ih =>
    intro seen
    simp only [dedupTopicsAux, List.map_cons]
    split
    · exact (ih seen).trans (List.sublist_cons_self _ _)
    · exact List.Sublist.cons₂ _ (ih _)

/-- The research loop performs at most one Research Adapter call per
processed topic. -/
theorem gatherLoop_fetched_le (fetch : String → String) :
    ∀ (ts : List String) (c : Cache),
      (gatherLoop fetch ts c).fetched.length ≤ ts.length := by
  intro ts
  induction ts with
  | nil => intro c; simp [gatherLoop]
  | cons t ts ih =>
    intro c
    simp only [gatherLoop]
    split
    · simpa using (ih c).trans (Nat.le_succ _)
    · simpa using ih ((pyLower t, fetch t) :: c)

/-- Refinement bridge: the source dedup loop coincides with the spec-side
first-seen case-insensitive deduplication. -/
theorem firstSeenDistinct_eq_dedupTopicsAux (topics : List String) :
    firstSeenDistinct topics = dedupTopicsAux topics [] := by
  have main : ∀ (ts : List String) (acc seen : List String),
      (∀ x, x ∈ seen ↔ x ∈ acc.map pyLower) →
      (ts.map pyStrip).foldl
        (fun acc t => if acc.any (fun a => pyLower a == pyLower t) then acc
          else acc ++ [t]) acc =
        acc ++ dedupTopicsAux ts seen := by
    intro ts
    induction ts with
    | nil => intro acc seen _; simp [dedupTopicsAux]
    | cons t ts ih =>
      intro acc seen hseen
      have hany : (acc.any (fun a => pyLower a == pyLower (pyStrip t)) = true) ↔
          pyLower (pyStrip t) ∈ seen := by
        rw [hseen]
        simp [List.any_eq_true]
      by_cases hmem : pyLower (pyStrip t) ∈ seen
      · have hc : seen.contains (pyLower (pyStrip t)) = true :=
          (stringList_contains_iff seen (pyLower (pyStrip t))).mpr hmem
        have ha : acc.any (fun a => pyLower a == pyLower (pyStrip t)) = true :=
          hany.mpr hmem
        simp only [List.map_cons, List.foldl_cons, ha, if_true, dedupTopicsAux, hc]
        exact ih acc seen hseen
      · have hc : seen.contains (pyLower (pyStrip t)) = false := by
          by_contra hne
          exact hmem ((stringList_contains_iff seen (pyLower (pyStrip t))).mp
            (by revert hne; cases seen.contains (pyLower (pyStrip t)) <;> simp))
        have ha : acc.any (fun a => pyLower a == pyLower (pyStrip t)) = false := by
          by_contra hne
          exact hmem (hany.mp
            (by revert hne; cases acc.any (fun a => pyLower a == pyLower (pyStrip t)) <;> simp))
        simp only [List.map_cons, List.foldl_cons, ha, Bool.false_eq_true, if_false,
          dedupTopicsAux, hc]
        rw [ih (acc ++ [pyStrip t]) (pyLower (pyStrip t) :: seen) ?_]
        · simp
        · intro x
          simp only [List.mem_cons, hseen, List.map_append, List.mem_append]
          simp [or_comm]
  have h := main topics [] [] (by simp)
  simpa [firstSeenDistinct] using h

/-- C4: topic cap and deduplication — with more than 5 case-insensitively
distinct topics, evidence gathering processes exactly the first 5 distinct
trimmed topics in first-seen order (the take-5 of the spec-side first-seen
deduplication), so at most 5 research fetches occur for the lesson and all
later topics are ignored. -/
theorem topic_cap_and_dedup (topics : List String) (fetch : String → String)
    (c : Cache)
    (h5 : 5 < ((topics.map (fun t => pyLower (pyStrip t))).dedup).length) :
    uniqueTopics topics = (firstSeenDistinct topics).take 5 ∧
    (uniqueTopics topics).length = 5 ∧
    (uniqueTopics topics).Sublist (topics.map pyStrip) ∧
    List.Pairwise (fun a b => pyLower a ≠ pyLower b) (uniqueTopics topics) ∧
    (gather_evidence fetch topics c).fetched.length ≤ 5 := by
  refine ⟨?_, ?_, ?_, ?_, ?_⟩
  · rw [firstSeenDistinct_eq_dedupTopicsAux]
    rfl
  · have hlen := dedupTopicsAux_length topics
    simp only [uniqueTopics, MAX_WIKI_TOPICS, List.length_take]
    omega
  · exact (List.take_sublist _ _).trans (dedupTopicsAux_sublist topics [])
  · have hnd := dedupTopicsAux_classes_nodup topics []
    have hpw : List.Pairwise (fun a b => pyLower a ≠ pyLower b)
        (dedupTopicsAux topics []) := List.pairwise_map.mp hnd
    exact hpw.sublist (List.take_sublist _ _)
  · have h1 := gatherLoop_fetched_le fetch (uniqueTopics topics) c
    have h2 : (uniqueTopics topics).length ≤ 5 := by
      simp only [uniqueTopics, MAX_WIKI_TOPICS, List.length_take]
      omega
    simpa [gather_evidence] using h1.trans h2

/-- Witness for C4: seven topics with six distinct case-insensitive classes
(one case-variant duplicate) are cut to exactly the first five distinct
trimmed topics and at most five fetches. -/
theorem topic_cap_and_dedup_witness :
    uniqueTopics ["Korean War", " korean war ", "Inchon Landing", "38th parallel",
        "Cold War origins", "Treaty of Versailles", "Battle of Inchon"] =
      (firstSeenDistinct ["Korean War", " korean war ", "Inchon Landing",
        "38th parallel", "Cold War origins", "Treaty of Versailles",
        "Battle of Inchon"]).take 5 ∧
    (uniqueTopics ["Korean War", " korean war ", "Inchon Landing", "38th parallel",
        "Cold War origins", "Treaty of Versailles", "Battle of Inchon"]).length = 5 ∧
    (uniqueTopics ["Korean War", " korean war ", "Inchon Landing", "38th parallel",
        "Cold War origins", "Treaty of Versailles", "Battle of Inchon"]).Sublist
      (["Korean War", " korean war ", "Inchon Landing", "38th parallel",
        "Cold War origins", "Treaty of Versailles", "Battle of Inchon"].map pyStrip) ∧
    List.Pairwise (fun a b => pyLower a ≠ pyLower b)
      (uniqueTopics ["Korean War", " korean war ", "Inchon Landing", "38th parallel",
        "Cold War origins", "Treaty of Versailles", "Battle of Inchon"]) ∧
    (gather_evidence fetchFailStub ["Korean War", " korean war ", "Inchon Landing",
        "38th parallel", "Cold War origins", "Treaty of Versailles",
        "Battle of Inchon"] []).fetched.length ≤ 5 :=
  topic_cap_and_dedup ["Korean War", " korean war ", "Inchon Landing",
    "38th parallel", "Cold War origins", "Treaty of Versailles", "Battle of Inchon"]
    fetchFailStub [] (by decide)

/-- Closed forms for the append-only fields of the shared context: each field
equals the starting value followed by everything appended, in order. -/
theorem contextAfter_fields :
    ∀ (outs : List LessonOutcome) (ctx : SharedContext),
      (outs.foldl updateSharedContext ctx).slide_titles =
        ctx.slide_titles ++ (outs.map (fun o => o.newSlideTitles)).flatten ∧
      (outs.foldl updateSharedContext ctx).full_summaries =
        ctx.full_summaries ++ outs.map (fun o => o.summary) ∧
      (outs.foldl updateSharedContext ctx).sources =
        ctx.sources ++ (outs.map (fun o => o.keptSources)).flatten ∧
      (outs.foldl updateSharedContext ctx).fact_check_stats =
        ctx.fact_check_stats ++ outs.map (fun o => o.stat) := by
  intro outs
  induction outs with
  | nil => intro ctx; simp
  | cons o outs ih =>
    intro ctx
    obtain ⟨h1, h2, h3, h4⟩ := ih (updateSharedContext ctx o)
    simp only [List.foldl_cons, List.map_cons]
    refine ⟨?_, ?_, ?_, ?_⟩
    · rw [h1]; simp [updateSharedContext, List.append_assoc]
    · rw [h2]; simp [updateSharedContext, List.append_assoc]
    · rw [h3]; simp [updateSharedContext, List.append_assoc]
    · rw [h4]; simp [updateSharedContext, List.append_assoc]

/-- The sliding window holds exactly the last (at most two) truncated lesson
texts: the fold keeps the length-≥-2 suffix of all appended entries. -/
theorem contextAfter_lesson_summaries :
    ∀ (outs : List LessonOutcome) (ctx : SharedContext),
      ctx.lesson_summaries.length ≤ 2 →
      (outs.foldl updateSharedContext ctx).lesson_summaries =
        (ctx.lesson_summaries ++ outs.map truncatedSummary).drop
          ((ctx.lesson_summaries ++ outs.map truncatedSummary).length - 2) := by
  intro outs
  induction outs with
  | nil =>
    intro ctx h
    have h0 : (ctx.lesson_summaries ++ ([] : List LessonOutcome).map truncatedSummary).length - 2 = 0 := by
      simp
      omega
    rw [h0]
    simp
  | cons o outs ih =>
    intro ctx h
    rcases hctx : ctx.lesson_summaries with _ | ⟨a, _ | ⟨b, _ | ⟨c, rest⟩⟩⟩
    · have hupd : (updateSharedContext ctx o).lesson_summaries =
          [truncatedSummary o] := by
        simp [updateSharedContext, hctx]
      have ihh := ih (updateSharedContext ctx o) (by rw [hupd]; simp)
      rw [List.foldl_cons, ihh, hupd]
      simp
    · have hupd : (updateSharedContext ctx o).lesson_summaries =
          [a, truncatedSummary o] := by
        simp [updateSharedContext, hctx]
      have ihh := ih (updateSharedContext ctx o) (by rw [hupd]; simp)
      rw [List.foldl_cons, ihh, hupd]
      simp
    · have hupd : (updateSharedContext ctx o).lesson_summaries =
          [b, truncatedSummary o] := by
        simp [updateSharedContext, hctx]
      have ihh := ih (updateSharedContext ctx o) (by rw [hupd]; simp)
      rw [List.foldl_cons, ihh, hupd]
      have hn1 : ([a, b] ++ truncatedSummary o :: outs.map truncatedSummary).length - 2 =
          (outs.map truncatedSummary).length + 1 := by
        simp
      have hn2 : ([b, truncatedSummary o] ++ outs.map truncatedSummary).length - 2 =
          (outs.map truncatedSummary).length := by
        simp
      simp only [List.map_cons] at hn1 ⊢
      rw [hn1, hn2]
      simp [List.drop_succ_cons]
    · exfalso
      rw [hctx] at h
      simp at h

/-- C6: Cross-Lesson Context invariant — after any number of processed
lessons, `lesson_summaries` is exactly the (at most two-element) suffix of
the truncated lesson texts in order (so its length is `min n 2`, exactly 2
once `n ≥ 3`, with the oldest entry evicted first), while `slide_titles`,
`full_summaries`, `sources` and `fact_check_stats` equal the in-order
concatenation of everything appended — append-only, never removed or
reordered. -/
theorem cross_lesson_context_invariant (outs : List LessonOutcome) :
    (contextAfter outs).lesson_summaries =
      (outs.map truncatedSummary).drop (outs.length - 2) ∧
    (contextAfter outs).lesson_summaries.length = min outs.length 2 ∧
    (3 ≤ outs.length → (contextAfter outs).lesson_summaries.length = 2) ∧
    (contextAfter outs).slide_titles = (outs.map (fun o => o.newSlideTitles)).flatten ∧
    (contextAfter outs).full_summaries = outs.map (fun o => o.summary) ∧
    (contextAfter outs).sources = (outs.map (fun o => o.keptSources)).flatten ∧
    (contextAfter outs).fact_check_stats = outs.map (fun o => o.stat) := by
  have hls := contextAfter_lesson_summaries outs initialSharedContext
    (by simp [initialSharedContext])
  have hf := contextAfter_fields outs initialSharedContext
  have h1 : (contextAfter outs).lesson_summaries =
      (outs.map truncatedSummary).drop (outs.length - 2) := by
    simpa [contextAfter, initialSharedContext] using hls
  refine ⟨h1, ?_, ?_, ?_, ?_, ?_, ?_⟩
  · rw [h1, List.length_drop, List.length_map]
    omega
  · intro h3
    rw [h1, List.length_drop, List.length_map]
    omega
  · simpa [contextAfter, initialSharedContext] using hf.1
  · simpa [contextAfter, initialSharedContext] using hf.2.1
  · simpa [contextAfter, initialSharedContext] using hf.2.2.1
  · simpa [contextAfter, initialSharedContext] using hf.2.2.2

/-- Witness for C6: after three lessons the window holds exactly the last
two truncated texts and the append-only lists hold all three contributions. -/
theorem cross_lesson_context_invariant_witness :
    (contextAfter [outcomeStub 1, outcomeStub 2, outcomeStub 3]).lesson_summaries =
      ([outcomeStub 1, outcomeStub 2, outcomeStub 3].map truncatedSummary).drop
        (([outcomeStub 1, outcomeStub 2, outcomeStub 3] : List LessonOutcome).length - 2) ∧
    (contextAfter [outcomeStub 1, outcomeStub 2, outcomeStub 3]).lesson_summaries.length = 2 ∧
    (contextAfter [outcomeStub 1, outcomeStub 2, outcomeStub 3]).full_summaries =
      [outcomeStub 1, outcomeStub 2, outcomeStub 3].map (fun o => o.summary) := by
  have h := cross_lesson_context_invariant [outcomeStub 1, outcomeStub 2, outcomeStub 3]
  exact ⟨h.1, h.2.2.1 (by decide), h.2.2.2.2.1⟩

/-- The head character of a string built as `pre ++ mid ++ suf` is the head
of the non-empty `pre`. -/
theorem msg_head (pre mid suf : String) (hp : pre.data ≠ []) :
    (pre ++ mid ++ suf).data.head? = pre.data.head? := by
  rcases hd : pre.data with _ | ⟨c, cs⟩
  · exact absurd hd hp
  · rw [String.data_append, String.data_append, hd]
    simp

/-- A Supported verdict is never syntactically a Weak-support verdict. -/
theorem supported_ne_weak (h1 h2 : String) :
    "✅ Supported (keyword overlap: " ++ h1 ++ ")" ≠
      "⚠️ Weak support (keyword overlap: " ++ h2 ++ ")" := by
  intro he
  have hh : ("✅ Supported (keyword overlap: " ++ h1 ++ ")").data.head? =
      ("⚠️ Weak support (keyword overlap: " ++ h2 ++ ")").data.head? := by rw [he]
  rw [msg_head _ _ _ (by decide), msg_head _ _ _ (by decide)] at hh
  exact absurd hh (by decide)

/-- A Supported verdict is never the Not-supported verdict. -/
theorem supported_ne_notmsg (h1 : String) :
    "✅ Supported (keyword overlap: " ++ h1 ++ ")" ≠
      "❌ Not supported by evidence (no meaningful keyword overlap)" := by
  intro he
  have hh : ("✅ Supported (keyword overlap: " ++ h1 ++ ")").data.head? =
      ("❌ Not supported by evidence (no meaningful keyword overlap)" : String).data.head? := by
    rw [he]
  rw [msg_head _ _ _ (by decide)] at hh
  exact absurd hh (by decide)

/-- A Weak-support verdict is never the Not-supported verdict. -/
theorem weak_ne_notmsg (h1 : String) :
    "⚠️ Weak support (keyword overlap: " ++ h1 ++ ")" ≠
      "❌ Not supported by evidence (no meaningful keyword overlap)" := by
  intro he
  have hh : ("⚠️ Weak support (keyword overlap: " ++ h1 ++ ")").data.head? =
      ("❌ Not supported by evidence (no meaningful keyword overlap)" : String).data.head? := by
    rw [he]
  rw [msg_head _ _ _ (by decide)] at hh
  exact absurd hh (by decide)

/-- The number of overlap hits is the cardinality of the set of normalized
words (length ≥ 5, lowercased, punctuation-stripped) shared between claim
and evidence. -/
theorem overlapHits_length (claim evidence : String) :
    (overlapHits claim evidence).length =
      ((norm_words claim).toFinset ∩ (norm_words evidence).toFinset).card := by
  have hnd : (norm_words claim).Nodup := List.nodup_dedup _
  have hndf : ((norm_words claim).filter
      (fun w => (norm_words evidence).contains w)).Nodup := hnd.filter _
  have hset : ((norm_words claim).filter
      (fun w => (norm_words evidence).contains w)).toFinset =
      (norm_words claim).toFinset ∩ (norm_words evidence).toFinset := by
    ext x
    simp only [List.mem_toFinset, List.mem_filter, Finset.mem_inter,
      stringList_contains_iff]
  rw [overlapHits, List.length_mergeSort, ← List.toFinset_card_of_nodup hndf, hset]

/-- C10: the local fact-check heuristic is a pure total function returning
exactly one of three verdict shapes, the choice determined solely by the
number of shared normalized words: Supported iff the overlap has at least 3
words, Weak support iff it has 1 or 2, Not supported iff it is empty. -/
theorem lightweight_factcheck_classification (claim evidence : String) :
    (overlapHits claim evidence).length =
      ((norm_words claim).toFinset ∩ (norm_words evidence).toFinset).card ∧
    ((∃ h, lightweight_factcheck claim evidence =
        "✅ Supported (keyword overlap: " ++ h ++ ")") ↔
      3 ≤ (overlapHits claim evidence).length) ∧
    ((∃ h, lightweight_factcheck claim evidence =
        "⚠️ Weak support (keyword overlap: " ++ h ++ ")") ↔
      (1 ≤ (overlapHits claim evidence).length ∧
        (overlapHits claim evidence).length ≤ 2)) ∧
    ((lightweight_factcheck claim evidence =
        "❌ Not supported by evidence (no meaningful keyword overlap)") ↔
      (overlapHits claim evidence).length = 0) := by
  refine ⟨overlapHits_length claim evidence, ?_⟩
  by_cases h3 : 3 ≤ (overlapHits claim evidence).length
  · have hlf : lightweight_factcheck claim evidence =
        "✅ Supported (keyword overlap: " ++
          pyJoin ", " ((overlapHits claim evidence).take 10) ++ ")" := by
      simp [lightweight_factcheck, h3]
    refine ⟨⟨fun _ => h3, fun _ => ⟨_, hlf⟩⟩, ?_, ?_⟩
    · constructor
      · rintro ⟨h, he⟩
        rw [hlf] at he
        exact absurd he (supported_ne_weak _ _)
      · rintro ⟨_, h2⟩
        omega
    · constructor
      · intro he
        rw [hlf] at he
        exact absurd he (supported_ne_notmsg _)
      · intro h0
        omega
  · by_cases h1 : 1 ≤ (overlapHits claim evidence).length
    · have hlf : lightweight_factcheck claim evidence =
          "⚠️ Weak support (keyword overlap: " ++
            pyJoin ", " ((overlapHits claim evidence).take 10) ++ ")" := by
        simp [lightweight_factcheck, h3, h1]
      refine ⟨?_, ⟨fun _ => ⟨h1, by omega⟩, fun _ => ⟨_, hlf⟩⟩, ?_⟩
      · constructor
        · rintro ⟨h, he⟩
          rw [hlf] at he
          exact absurd he.symm (supported_ne_weak _ _)
        · intro hge
          exact absurd hge h3
      · constructor
        · intro he
          rw [hlf] at he
          exact absurd he (weak_ne_notmsg _)
        · intro h0
          omega
    · have hlf : lightweight_factcheck claim evidence =
          "❌ Not supported by evidence (no meaningful keyword overlap)" := by
        simp [lightweight_factcheck, h3, h1]
      refine ⟨?_, ?_, ⟨fun _ => by omega, fun _ => hlf⟩⟩
      · constructor
        · rintro ⟨h, he⟩
          rw [hlf] at he
          exact absurd he.symm (supported_ne_notmsg _)
        · intro hge
          exact absurd hge h3
      · constructor
        · rintro ⟨h, he⟩
          rw [hlf] at he
          exact absurd he.symm (weak_ne_notmsg _)
        · rintro ⟨hge, _⟩
          exact absurd hge h1

end HistoriaAI
